import Mathlib

/-!
Shallow embedding of `image_ocr_extraction.py`: a four-stage OCR pipeline
(image/PDF text extraction, LLM structuring, LLM-agent validation, CLI
orchestrator).  External collaborators (cv2, pytesseract, pdf2image, the
Gemini SDK, autogen agents) are modelled as oracle parameters; a Python
exception is modelled as `Except PyErr`; Python `dict`/JSON values are
modelled by `PyJson`.
-/

set_option maxRecDepth 4000

/-- A Python exception, identified by its `str(e)` message. -/
structure PyErr where
  msg : String
deriving DecidableEq, Repr

/-- A Python value produced by `json.loads` (and consumed by `json.dumps`):
`None`, `bool`, `int`, `float` (kept as its source token; float arithmetic
is never performed by the program), `str`, `list`, `dict`.  Dicts are
insertion-ordered association lists, as in Python 3.7+. -/
inductive PyJson where
  | null
  | bool (b : Bool)
  | int (n : Int)
  | float (tok : String)
  | str (s : String)
  | arr (xs : List PyJson)
  | obj (kvs : List (String × PyJson))

/-- The error shape used throughout the script: `{"error": msg}`. -/
def errObj (msg : String) : PyJson :=
  PyJson.obj [("error", PyJson.str msg)]

/-- True when the dict has the given key (Python `"k" in d`). -/
def hasKey (v : PyJson) (k : String) : Bool :=
  match v with
  | PyJson.obj kvs => kvs.any (fun p => p.1 = k)
  | _ => false

/-- Whitespace characters recognised by Python's `str.strip()` that can occur
in this program's (ASCII) data. -/
def isPyWs (c : Char) : Bool :=
  c = ' ' || c = '\t' || c = '\n' || c = '\x0d' || c = '\x0b' || c = '\x0c'

/-- Python `str.strip()`: drop leading and trailing whitespace. -/
def pyStrip (s : String) : String :=
  ⟨((s.data.dropWhile isPyWs).reverse.dropWhile isPyWs).reverse⟩

/-- Python `str.lower()` (ASCII range, which covers the paths this program
compares). -/
def pyLower (s : String) : String :=
  ⟨s.data.map Char.toLower⟩

/-- Python `str.endswith(suffix)`. -/
def pyEndsWith (s suffix : String) : Bool :=
  decide (suffix.data <:+ s.data)

/-- Index of the first occurrence of `c`, if any. -/
def firstIdxOf (c : Char) : List Char → Option Nat
  | [] => none
  | x :: xs => if x = c then some 0 else (firstIdxOf c xs).map (· + 1)

/-- Index of the last occurrence of `c`, if any. -/
def lastIdxOf (c : Char) : List Char → Option Nat
  | [] => none
  | x :: xs =>
    match lastIdxOf c xs with
    | some k => some (k + 1)
    | none => if x = c then some 0 else none

/-- One attempt of the pattern `\{.*\}` (with `re.DOTALL`) anchored at the
head of `cs`: the head must be `{`, and the greedy `.*` backtracks to the
last `}` of the remainder. -/
def reMatchAt (cs : List Char) : Option (List Char) :=
  match cs with
  | [] => none
  | c :: rest =>
    if c = '{' then
      match lastIdxOf '}' rest with
      | some k => some ('{' :: rest.take (k + 1))
      | none => none
    else none

/-- Model of `re.search(r"\{.*\}", s, re.DOTALL)`: try the pattern at each
start position from left to right, returning the first (leftmost) match. -/
def reSearchBrace : List Char → Option (List Char)
  | [] => none
  | c :: cs =>
    match reMatchAt (c :: cs) with
    | some m => some m
    | none => reSearchBrace cs

/-- Declarative description of the same search: the span from the first `{`
to the last `}`, provided the former precedes the latter. -/
def greedySpanSpec (cs : List Char) : Option (List Char) :=
  match firstIdxOf '{' cs, lastIdxOf '}' cs with
  | some i, some j => if i < j then some ((cs.drop i).take (j - i + 1)) else none
  | _, _ => none

/-- The reading of claim C2: the span from the first `{` to the first `}`
after it (non-greedy), which is NOT what the code's regex does. -/
def firstCloseSpanSpec (cs : List Char) : Option (List Char) :=
  match firstIdxOf '{' cs with
  | none => none
  | some i =>
    let rest := cs.drop i
    match firstIdxOf '}' (rest.drop 1) with
    | none => none
    | some k => some (rest.take (k + 2))

/-- JSON whitespace accepted by Python's json scanner. -/
def isJsonWs (c : Char) : Bool :=
  c = ' ' || c = '\t' || c = '\n' || c = '\x0d'

/-- Skip JSON whitespace. -/
def skipWs (cs : List Char) : List Char :=
  cs.dropWhile isJsonWs

/-- Value of one hexadecimal digit. -/
def hexVal (c : Char) : Option Nat :=
  if '0' ≤ c ∧ c ≤ '9' then some (c.toNat - '0'.toNat)
  else if 'a' ≤ c ∧ c ≤ 'f' then some (c.toNat - 'a'.toNat + 10)
  else if 'A' ≤ c ∧ c ≤ 'F' then some (c.toNat - 'A'.toNat + 10)
  else none

/-- Body of a JSON string literal, after the opening quote: characters up to
the closing quote, decoding escapes.  Strict mode: a raw control character
is an error.  (Surrogate-pair recombination of `\uXXXX` escapes is not
modelled; the program's data is ASCII.) -/
def parseStringBody : List Char → List Char → Option (String × List Char)
  | '"' :: rest, acc => some (⟨acc.reverse⟩, rest)
  | '\\' :: e :: rest, acc =>
    if e = '"' then parseStringBody rest ('"' :: acc)
    else if e = '\\' then parseStringBody rest ('\\' :: acc)
    else if e = '/' then parseStringBody rest ('/' :: acc)
    else if e = 'b' then parseStringBody rest ('\x08' :: acc)
    else if e = 'f' then parseStringBody rest ('\x0c' :: acc)
    else if e = 'n' then parseStringBody rest ('\n' :: acc)
    else if e = 'r' then parseStringBody rest ('\x0d' :: acc)
    else if e = 't' then parseStringBody rest ('\t' :: acc)
    else if e = 'u' then
      match rest with
      | h1 :: h2 :: h3 :: h4 :: rest2 =>
        match hexVal h1, hexVal h2, hexVal h3, hexVal h4 with
        | some a, some b, some c, some d =>
          parseStringBody rest2 (Char.ofNat (((a * 16 + b) * 16 + c) * 16 + d) :: acc)
        | _, _, _, _ => none
      | _ => none
    else none
  | c :: rest, acc => if c.toNat < 32 then none else parseStringBody rest (c :: acc)
  | [], _ => none

/-- Longest digit run at the head, and the remainder. -/
def spanDigits (cs : List Char) : List Char × List Char :=
  (cs.takeWhile Char.isDigit, cs.dropWhile Char.isDigit)

/-- Numeric value of a digit run. -/
def digitsToNat (ds : List Char) : Nat :=
  ds.foldl (fun n c => n * 10 + (c.toNat - '0'.toNat)) 0

/-- Optional fraction part `.digits` of a JSON number; returns its characters
and the remainder. -/
def parseFrac : List Char → Option (List Char × List Char)
  | '.' :: r =>
    let p := spanDigits r
    if p.1 = [] then none else some ('.' :: p.1, p.2)
  | cs => some ([], cs)

/-- Optional exponent part `[eE][+-]?digits` of a JSON number. -/
def parseExp : List Char → Option (List Char × List Char)
  | c :: r =>
    if c = 'e' ∨ c = 'E' then
      match r with
      | s :: r2 =>
        if s = '+' ∨ s = '-' then
          let p := spanDigits r2
          if p.1 = [] then none else some (c :: s :: p.1, p.2)
        else
          let p := spanDigits r
          if p.1 = [] then none else some (c :: p.1, p.2)
      | [] => none
    else some ([], c :: r)
  | [] => some ([], [])

/-- A JSON number at the head of `cs`: `-?(0|[1-9][0-9]*)(\.[0-9]+)?([eE][+-]?[0-9]+)?`.
An integer literal becomes a Python `int`; otherwise the token is kept as a
`float` literal. -/
def parseNumber (cs : List Char) : Option (PyJson × List Char) :=
  let sp := match cs with
    | '-' :: r => (['-'], r)
    | _ => (([] : List Char), cs)
  match sp.2 with
  | [] => none
  | c :: r =>
    if ¬ c.isDigit then none
    else
      let ip := if c = '0' then ([c], r) else (c :: (spanDigits r).1, (spanDigits r).2)
      match parseFrac ip.2 with
      | none => none
      | some (fracDs, r2) =>
        match parseExp r2 with
        | none => none
        | some (expDs, r3) =>
          if fracDs = [] ∧ expDs = [] then
            let n : Int := Int.ofNat (digitsToNat ip.1)
            some (PyJson.int (if sp.1 = [] then n else -n), r3)
          else
            some (PyJson.float ⟨sp.1 ++ ip.1 ++ fracDs ++ expDs⟩, r3)

/-- Python dict insertion as performed by the json scanner: an existing key
keeps its position and takes the new value; a new key is appended. -/
def insertKey (kvs : List (String × PyJson)) (k : String) (v : PyJson) : List (String × PyJson) :=
  match kvs with
  | [] => [(k, v)]
  | (k0, v0) :: rest => if k0 = k then (k, v) :: rest else (k0, v0) :: insertKey rest k v

mutual

/-- One JSON value starting exactly at the head of `cs` (leading whitespace
already skipped).  `fuel` bounds the recursion; `pyJsonLoads` supplies more
than enough. -/
def parseValue : Nat → List Char → Option (PyJson × List Char)
  | 0, _ => none
  | f + 1, cs =>
    match cs with
    | [] => none
    | '{' :: rest =>
      match parseObjBody f (skipWs rest) with
      | some (kvs, r) => some (PyJson.obj kvs, r)
      | none => none
    | '[' :: rest =>
      match parseArrBody f (skipWs rest) with
      | some (xs, r) => some (PyJson.arr xs, r)
      | none => none
    | '"' :: rest =>
      match parseStringBody rest [] with
      | some (s, r) => some (PyJson.str s, r)
      | none => none
    | 't' :: rest =>
      if rest.take 3 = ['r', 'u', 'e'] then some (PyJson.bool true, rest.drop 3) else none
    | 'f' :: rest =>
      if rest.take 4 = ['a', 'l', 's', 'e'] then some (PyJson.bool false, rest.drop 4) else none
    | 'n' :: rest =>
      if rest.take 3 = ['u', 'l', 'l'] then some (PyJson.null, rest.drop 3) else none
    | c :: rest => parseNumber (c :: rest)

/-- Inside an object, after `{` and whitespace: `}` or the first member. -/
def parseObjBody : Nat → List Char → Option (List (String × PyJson) × List Char)
  | 0, _ => none
  | f + 1, cs =>
    match cs with
    | '}' :: rest => some ([], rest)
    | _ => parseMembers f cs []

/-- One or more `"key": value` members separated by commas, ending at `}`. -/
def parseMembers : Nat → List Char → List (String × PyJson) →
    Option (List (String × PyJson) × List Char)
  | 0, _, _ => none
  | f + 1, cs, acc =>
    match cs with
    | '"' :: rest =>
      match parseStringBody rest [] with
      | none => none
      | some (key, r1) =>
        match skipWs r1 with
        | ':' :: r2 =>
          match parseValue f (skipWs r2) with
          | none => none
          | some (v, r3) =>
            match skipWs r3 with
            | ',' :: r4 => parseMembers f (skipWs r4) (insertKey acc key v)
            | '}' :: r4 => some (insertKey acc key v, r4)
            | _ => none
        | _ => none
    | _ => none

/-- Inside an array, after `[` and whitespace: `]` or the first item. -/
def parseArrBody : Nat → List Char → Option (List PyJson × List Char)
  | 0, _ => none
  | f + 1, cs =>
    match cs with
    | ']' :: rest => some ([], rest)
    | _ => parseItems f cs []

/-- One or more array items separated by commas, ending at `]`. -/
def parseItems : Nat → List Char → List PyJson → Option (List PyJson × List Char)
  | 0, _, _ => none
  | f + 1, cs, acc =>
    match parseValue f cs with
    | none => none
    | some (v, r1) =>
      match skipWs r1 with
      | ',' :: r2 => parseItems f (skipWs r2) (acc ++ [v])
      | ']' :: r2 => some (acc ++ [v], r2)
      | _ => none

end

/-- Model of Python's `json.loads`: one JSON document with surrounding
whitespace allowed; the whole input must be consumed.  Returns `none` where
Python raises `json.JSONDecodeError`. -/
def pyJsonLoads (s : String) : Option PyJson :=
  let cs := skipWs s.data
  match parseValue (3 * cs.length + 3) cs with
  | some (v, rest) => if skipWs rest = [] then some v else none
  | none => none

/-- A run of `n` spaces. -/
def spaces (n : Nat) : List Char :=
  List.replicate n ' '

/-- One hexadecimal digit character. -/
def natToHexDigit (n : Nat) : Char :=
  if n < 10 then Char.ofNat ('0'.toNat + n) else Char.ofNat ('a'.toNat + n - 10)

/-- Four-digit lowercase hex rendering, as in `\uXXXX` escapes. -/
def toHex4 (n : Nat) : List Char :=
  [natToHexDigit (n / 4096 % 16), natToHexDigit (n / 256 % 16),
   natToHexDigit (n / 16 % 16), natToHexDigit (n % 16)]

/-- One character of a JSON string as emitted by Python's `json.dumps` with
the default `ensure_ascii=True`. -/
def dumpsChar (c : Char) : List Char :=
  if c = '"' then ['\\', '"']
  else if c = '\\' then ['\\', '\\']
  else if c = '\n' then ['\\', 'n']
  else if c = '\t' then ['\\', 't']
  else if c = '\x0d' then ['\\', 'r']
  else if c = '\x08' then ['\\', 'b']
  else if c = '\x0c' then ['\\', 'f']
  else if c.toNat < 32 ∨ c.toNat > 126 then
    if c.toNat < 65536 then '\\' :: 'u' :: toHex4 c.toNat
    else
      let n := c.toNat - 65536
      ('\\' :: 'u' :: toHex4 (55296 + n / 1024)) ++ ('\\' :: 'u' :: toHex4 (56320 + n % 1024))
  else [c]

/-- A JSON string literal as emitted by `json.dumps`. -/
def dumpsString (s : String) : String :=
  ⟨'"' :: s.data.foldr (fun c acc => dumpsChar c ++ acc) ['"']⟩

mutual

/-- Rendering of one value by `json.dumps(..., indent=indent)` at nesting
level `lvl` (Python's default separators for indented output: `","` between
items and `": "` between key and value). -/
def pyDumpsVal : Nat → Nat → PyJson → String
  | _, _, PyJson.null => "null"
  | _, _, PyJson.bool b => if b then "true" else "false"
  | _, _, PyJson.int n => toString n
  | _, _, PyJson.float tok => tok
  | _, _, PyJson.str s => dumpsString s
  | _, _, PyJson.arr [] => "[]"
  | indent, lvl, PyJson.arr (x :: xs) =>
    "[\n" ++ pyDumpsItems indent (lvl + 1) (x :: xs) ++ "\n" ++ ⟨spaces (indent * lvl)⟩ ++ "]"
  | _, _, PyJson.obj [] => "\x7b\x7d"
  | indent, lvl, PyJson.obj (kv :: kvs) =>
    "\x7b\n" ++ pyDumpsMembers indent (lvl + 1) (kv :: kvs) ++ "\n" ++
      ⟨spaces (indent * lvl)⟩ ++ "\x7d"

/-- The comma-separated, indented items of a dumped array. -/
def pyDumpsItems : Nat → Nat → List PyJson → String
  | _, _, [] => ""
  | indent, lvl, [x] => ⟨spaces (indent * lvl)⟩ ++ pyDumpsVal indent lvl x
  | indent, lvl, x :: y :: xs =>
    ⟨spaces (indent * lvl)⟩ ++ pyDumpsVal indent lvl x ++ ",\n" ++
      pyDumpsItems indent lvl (y :: xs)

/-- The comma-separated, indented members of a dumped object. -/
def pyDumpsMembers : Nat → Nat → List (String × PyJson) → String
  | _, _, [] => ""
  | indent, lvl, [(k, v)] =>
    ⟨spaces (indent * lvl)⟩ ++ dumpsString k ++ ": " ++ pyDumpsVal indent lvl v
  | indent, lvl, (k, v) :: kv :: kvs =>
    ⟨spaces (indent * lvl)⟩ ++ dumpsString k ++ ": " ++ pyDumpsVal indent lvl v ++ ",\n" ++
      pyDumpsMembers indent lvl (kv :: kvs)

end

/-- Model of `json.dumps(v, indent=n)` (src lines 113, 150, 159, 171). -/
def pyJsonDumps (v : PyJson) (indent : Nat) : String :=
  pyDumpsVal indent 0 v

/-- `extract_text_from_image` (src lines 19-27).  `imread` models
`cv2.imread`, which returns `None` (`none`) when the file is missing or not
decodable as an image; `cvtColor` models `cv2.cvtColor(img, COLOR_BGR2GRAY)`
and `image_to_string` models `pytesseract.image_to_string(gray, lang="eng")`,
either of which may raise.  The function body has no try/except, so an
oracle's exception propagates out as `Except.error`. -/
def extract_text_from_image {Img Gray : Type}
    (imread : String → Option Img)
    (cvtColor : Img → Except PyErr Gray)
    (image_to_string : Gray → Except PyErr String)
    (image_path : String) : Except PyErr String :=
  match imread image_path with
  | none => Except.ok "Error: Image file not found or cannot be read."
  | some img => do
    let gray ← cvtColor img
    let text ← image_to_string gray
    Except.ok (pyStrip text)

/-- The page loop of `extract_text_from_pdf` (src lines 35-36):
`text += pytesseract.image_to_string(image, lang="eng") + "\n"`, aborting at
the first raised exception. -/
def pdfPageLoop {Img : Type} (image_to_string : Img → Except PyErr String) :
    List Img → String → Except PyErr String
  | [], text => Except.ok text
  | img :: rest, text => do
    let t ← image_to_string img
    pdfPageLoop image_to_string rest (text ++ t ++ "\n")

/-- The try-block body of `extract_text_from_pdf` (src lines 33-37).
`convert_from_path` models pdf2image's rasterizer, which may raise. -/
def pdfTryBody {Img : Type}
    (convert_from_path : String → Except PyErr (List Img))
    (image_to_string : Img → Except PyErr String)
    (pdf_path : String) : Except PyErr String := do
  let images ← convert_from_path pdf_path
  let text ← pdfPageLoop image_to_string images ""
  Except.ok (pyStrip text)

/-- `extract_text_from_pdf` (src lines 30-39): any exception raised in the
body is caught and converted to an error string, so the function always
returns a string. -/
def extract_text_from_pdf {Img : Type}
    (convert_from_path : String → Except PyErr (List Img))
    (image_to_string : Img → Except PyErr String)
    (pdf_path : String) : String :=
  match pdfTryBody convert_from_path image_to_string pdf_path with
  | Except.ok t => t
  | Except.error e => "Error extracting text from PDF: " ++ e.msg

/-- The f-string prompt of `extract_structured_data` (src lines 43-60),
reproduced character for character (the doubled braces of the f-string are
single braces in the resulting prompt). -/
def structuring_prompt (raw_text : String) : String :=
  "\n    Extract the following details from the given text and return in JSON format:\n    - Name\n    - PAN Number\n    - Date of Birth (DOB)\n    \n    \n    Raw Text:\n    " ++
  raw_text ++
  "\n\n    Format the response strictly as JSON without any extra text.\n    Example:\n    \x7b\n        \"Name\": \"John Doe\",\n        \"PAN\": \"ABCDE1234F\",\n        \"DOB\": \"01/01/1990\",\n    \x7d\n    "

/-- `extract_structured_data` (src lines 42-85).  `generate_content` models
`genai.GenerativeModel("gemini-2.0-flash").generate_content(prompt)`
together with the `.text` accessor: `Except.error e` is a raised exception
(caught by the function's own try/except), `.ok none` a falsy response
object, `.ok (some t)` a truthy response whose `.text` is `t`.  Every
branch returns a `PyJson` value; no exception escapes. -/
def extract_structured_data
    (generate_content : String → Except PyErr (Option String))
    (raw_text : String) : PyJson :=
  let prompt := structuring_prompt raw_text
  match generate_content prompt with
  | Except.error e => errObj ("Gemini API error: " ++ e.msg)
  | Except.ok none => errObj "Gemini API returned an empty response"
  | Except.ok (some text) =>
    if pyStrip text = "" then errObj "Gemini API returned an empty response"
    else
      match reSearchBrace text.data with
      | none => errObj "Gemini API returned invalid JSON format"
      | some m =>
        match pyJsonLoads ⟨m⟩ with
        | none => errObj "Gemini API returned malformed JSON"
        | some extracted_data => extracted_data

/-- One message of an autogen chat history. -/
structure ChatMsg where
  role : String
  content : String
deriving DecidableEq

/-- The object returned by `user_proxy.initiate_chat`; `hasAttr` models
`hasattr(response, "chat_history")` (src line 123). -/
structure ChatResult where
  hasAttr : Bool
  chat_history : List ChatMsg
deriving DecidableEq

/-- The scanning loop of `validate_extracted_data` (src lines 124-128): for
each message with role `"assistant"`, record its stripped content and stop
at the first non-empty one. -/
def loopExtract : List ChatMsg → Option String → Option String
  | [], acc => acc
  | m :: rest, acc =>
    if m.role = "assistant" then
      let c := pyStrip m.content
      if c ≠ "" then some c else loopExtract rest (some c)
    else loopExtract rest acc

/-- Python truthiness of `extracted_content` after the loop: `None` and the
empty string are falsy. -/
def contentTruthy : Option String → Bool
  | none => false
  | some s => s ≠ ""

/-- Src lines 122-141: select the assistant content from the chat result and
parse it as JSON.  `decodeErrMsg` models `str(e)` of the
`json.JSONDecodeError`; its exact text is produced by the json library and
is not modelled here. -/
def handleChatResult (decodeErrMsg : String → String) (response : ChatResult) : PyJson :=
  let extracted_content :=
    if response.hasAttr && ¬ response.chat_history.isEmpty then
      loopExtract response.chat_history none
    else none
  if ¬ contentTruthy extracted_content then
    errObj "Assistant did not return a valid JSON response."
  else
    let c := extracted_content.getD ""
    match pyJsonLoads c with
    | some v => v
    | none =>
      PyJson.obj [("error", PyJson.str ("Invalid JSON response: " ++ decodeErrMsg c)),
                  ("raw_response", PyJson.str c)]

/-- `validate_extracted_data` (src lines 89-144).  `mkAssistant` and
`mkUserProxy` model the two agent constructors (src lines 94-111), which run
BEFORE the try block and may raise; `initiate_chat` models
`user_proxy.initiate_chat(assistant, message=...)` (src line 116), whose
exceptions the function's try/except does catch.  The serialization
`json.dumps(data, indent=4)` (src line 113) is total on `PyJson`.  The
result is `Except.error` exactly when an exception escapes the function. -/
def validate_extracted_data {A U : Type}
    (mkAssistant : Except PyErr A)
    (mkUserProxy : Except PyErr U)
    (initiate_chat : U → A → String → Except PyErr ChatResult)
    (decodeErrMsg : String → String)
    (data : PyJson) : Except PyErr PyJson := do
  let assistant ← mkAssistant
  let user_proxy ← mkUserProxy
  let validation_prompt := pyJsonDumps data 4
  match initiate_chat user_proxy assistant validation_prompt with
  | Except.ok response => Except.ok (handleChatResult decodeErrMsg response)
  | Except.error e => Except.ok (errObj ("Validation failed: " ++ e.msg))

/-- A stage call recorded by the orchestrator model. -/
inductive Event where
  | extractImage (path : String)
  | extractPdf (path : String)
  | structuring (raw_text : String)
  | validation (data : PyJson)

/-- The external collaborators of the pipeline, bundled for `main`. -/
structure Oracles (Img Gray PdfImg A U : Type) where
  os_path_exists : String → Bool
  imread : String → Option Img
  cvtColor : Img → Except PyErr Gray
  ocr_image : Gray → Except PyErr String
  convert_from_path : String → Except PyErr (List PdfImg)
  ocr_pdf_page : PdfImg → Except PyErr String
  generate_content : String → Except PyErr (Option String)
  mkAssistant : Except PyErr A
  mkUserProxy : Except PyErr U
  initiate_chat : U → A → String → Except PyErr ChatResult
  decodeErrMsg : String → String

/-- Steps 2-4 of `main` after raw-text extraction (src lines 162-171): run
the structuring stage on the raw text, pass its result unchanged to the
validation stage, and print.  `Python print(a, b)` joins its arguments with
one space.  Returns the orchestrator's own stdout lines (the stages'
internal debug prints are not modelled) and the stage-call trace. -/
def mainAfterExtract {A U : Type}
    (generate_content : String → Except PyErr (Option String))
    (mkAssistant : Except PyErr A) (mkUserProxy : Except PyErr U)
    (initiate_chat : U → A → String → Except PyErr ChatResult)
    (decodeErrMsg : String → String)
    (raw_text : String) (events0 : List Event) :
    Except PyErr (List String × List Event) :=
  let structured_data := extract_structured_data generate_content raw_text
  match validate_extracted_data mkAssistant mkUserProxy initiate_chat decodeErrMsg
      structured_data with
  | Except.error e => Except.error e
  | Except.ok validated_data =>
    Except.ok
      (["\n🔹 Extracted Raw Text:\n" ++ " " ++ raw_text,
        "\n✅ Final Extracted Data:\n" ++ " " ++ pyJsonDumps validated_data 4],
       events0 ++ [Event.structuring raw_text, Event.validation structured_data])

/-- `main` (src lines 147-171): existence check, extension dispatch
(`file_path.lower().endswith(...)`), then the three stages in sequence.
The result is the pair (orchestrator stdout lines, stage-call trace), or
`Except.error` when an uncaught exception escapes. -/
def Script.main {Img Gray PdfImg A U : Type} (orc : Oracles Img Gray PdfImg A U)
    (file_path : String) : Except PyErr (List String × List Event) :=
  if ¬ orc.os_path_exists file_path then
    Except.ok ([pyJsonDumps (errObj "File not found!") 4], [])
  else if pyEndsWith (pyLower file_path) ".png" || pyEndsWith (pyLower file_path) ".jpg" ||
      pyEndsWith (pyLower file_path) ".jpeg" then
    match extract_text_from_image orc.imread orc.cvtColor orc.ocr_image file_path with
    | Except.error e => Except.error e
    | Except.ok raw_text =>
      mainAfterExtract orc.generate_content orc.mkAssistant orc.mkUserProxy orc.initiate_chat
        orc.decodeErrMsg raw_text [Event.extractImage file_path]
  else if pyEndsWith (pyLower file_path) ".pdf" then
    mainAfterExtract orc.generate_content orc.mkAssistant orc.mkUserProxy orc.initiate_chat
      orc.decodeErrMsg
      (extract_text_from_pdf orc.convert_from_path orc.ocr_pdf_page file_path)
      [Event.extractPdf file_path]
  else
    Except.ok ([pyJsonDumps (errObj "Unsupported file format!") 4], [])

/-- Skipping whitespace does nothing when the head is not whitespace. -/
theorem skipWs_cons_of_not_ws (c : Char) (cs : List Char) (h : isJsonWs c = false) :
    skipWs (c :: cs) = c :: cs := by
  simp [skipWs, List.dropWhile, h]

/-- A string with no `}` admits no match of the pattern anywhere. -/
theorem reSearchBrace_none_of_no_close :
    ∀ cs : List Char, lastIdxOf '}' cs = none → reSearchBrace cs = none
  | [], _ => rfl
  | c :: cs, h => by
    have h1 : lastIdxOf '}' cs = none := by
      cases hc : lastIdxOf '}' cs with
      | none => rfl
      | some k => rw [lastIdxOf, hc] at h; exact absurd h (by simp)
    have hc2 : ¬ c = '}' := by
      intro he
      rw [lastIdxOf, h1, if_pos he] at h
      exact absurd h (by simp)
    have ih := reSearchBrace_none_of_no_close cs h1
    by_cases hb : c = '{'
    · subst hb
      simp [reSearchBrace, reMatchAt, h1, ih]
    · simp [reSearchBrace, reMatchAt, hb, ih]

/-- The executable model of `re.search(r"\{.*\}", ..., re.DOTALL)` agrees
with its declarative description: the span from the first `{` to the last
`}`, when the former precedes the latter. -/
theorem reSearchBrace_eq_greedySpanSpec :
    ∀ cs : List Char, reSearchBrace cs = greedySpanSpec cs
  | [] => rfl
  | c :: cs => by
    have ih := reSearchBrace_eq_greedySpanSpec cs
    by_cases hb : c = '{'
    · subst hb
      cases hk : lastIdxOf '}' cs with
      | some k =>
        have : (0 : Nat) < k + 1 := Nat.succ_pos k
        simp [reSearchBrace, reMatchAt, greedySpanSpec, firstIdxOf, lastIdxOf, hk]
      | none =>
        have hno := reSearchBrace_none_of_no_close cs hk
        simp [reSearchBrace, reMatchAt, greedySpanSpec, firstIdxOf, lastIdxOf, hk, hno]
    · have hm : reMatchAt (c :: cs) = none := by simp [reMatchAt, hb]
      have lhs : reSearchBrace (c :: cs) = reSearchBrace cs := by
        simp [reSearchBrace, hm]
      rw [lhs, ih]
      cases hf : firstIdxOf '{' cs with
      | none =>
        simp [greedySpanSpec, firstIdxOf, hb, hf]
      | some i =>
        cases hk : lastIdxOf '}' cs with
        | some k =>
          by_cases hik : i < k
          · simp [greedySpanSpec, firstIdxOf, lastIdxOf, hb, hf, hk, hik,
              Nat.succ_lt_succ hik]
          · simp [greedySpanSpec, firstIdxOf, lastIdxOf, hb, hf, hk, hik,
              fun h => hik (Nat.lt_of_succ_lt_succ h)]
        | none =>
          by_cases hc2 : c = '}'
          · simp [greedySpanSpec, firstIdxOf, lastIdxOf, hb, hf, hk, hc2]
          · simp [greedySpanSpec, firstIdxOf, lastIdxOf, hb, hf, hk, hc2]

/-- `firstIdxOf` really points at an occurrence of `c`. -/
theorem firstIdxOf_get? (c : Char) :
    ∀ (cs : List Char) (i : Nat), firstIdxOf c cs = some i → cs.get? i = some c
  | [], i, h => by simp [firstIdxOf] at h
  | x :: cs, i, h => by
    by_cases hx : x = c
    · rw [firstIdxOf, if_pos hx] at h
      cases h
      simp [hx]
    · rw [firstIdxOf, if_neg hx] at h
      cases hf : firstIdxOf c cs with
      | none => rw [hf] at h; exact absurd h (by simp)
      | some j =>
        rw [hf] at h
        have hj := firstIdxOf_get? c cs j hf
        cases h
        simpa using hj

/-- `lastIdxOf` really points at an occurrence of `c`. -/
theorem lastIdxOf_get? (c : Char) :
    ∀ (cs : List Char) (i : Nat), lastIdxOf c cs = some i → cs.get? i = some c
  | [], i, h => by simp [lastIdxOf] at h
  | x :: cs, i, h => by
    cases hl : lastIdxOf c cs with
    | some k =>
      rw [lastIdxOf, hl] at h
      have hk := lastIdxOf_get? c cs k hl
      cases h
      simpa using hk
    | none =>
      rw [lastIdxOf, hl] at h
      by_cases hx : x = c
      · rw [if_pos hx] at h
        cases h
        simp [hx]
      · rw [if_neg hx] at h
        exact absurd h (by simp)

/-- A successful regex match starts with `{`. -/
theorem reSearchBrace_head :
    ∀ (cs m : List Char), reSearchBrace cs = some m → ∃ t, m = '{' :: t
  | [], m, h => by simp [reSearchBrace] at h
  | c :: cs, m, h => by
    rw [reSearchBrace] at h
    cases hm : reMatchAt (c :: cs) with
    | some m0 =>
      rw [hm] at h
      cases h
      rw [reMatchAt] at hm
      by_cases hc : c = '{'
      · rw [if_pos hc] at hm
        cases hk : lastIdxOf '}' cs with
        | some k => rw [hk] at hm; cases hm; exact ⟨_, rfl⟩
        | none => rw [hk] at hm; exact absurd hm (by simp)
      · rw [if_neg hc] at hm; exact absurd hm (by simp)
    | none =>
      rw [hm] at h
      exact reSearchBrace_head cs m h

/-- A string whose first character is `{` can only `json.loads` to a dict. -/
theorem pyJsonLoads_head_brace (t : List Char) (v : PyJson)
    (h : pyJsonLoads ⟨'{' :: t⟩ = some v) : ∃ kvs, v = PyJson.obj kvs := by
  have hskip : skipWs ('{' :: t) = '{' :: t :=
    skipWs_cons_of_not_ws '{' t (by decide)
  rw [pyJsonLoads] at h
  simp only [hskip] at h
  obtain ⟨f, hf⟩ : ∃ f, 3 * ('{' :: t).length + 3 = f + 1 :=
    ⟨3 * ('{' :: t).length + 2, by omega⟩
  rw [hf] at h
  rw [parseValue] at h
  cases ho : parseObjBody f (skipWs t) with
  | some p =>
    rw [ho] at h
    simp at h
    exact ⟨p.1, h.2.symm⟩
  | none =>
    rw [ho] at h
    exact absurd h (by simp)

/-- The messages the scanning loop stops at: role `"assistant"` with
non-empty stripped content. -/
def assistantValid (m : ChatMsg) : Bool :=
  m.role = "assistant" && pyStrip m.content ≠ ""

/-- When no message satisfies `assistantValid`, the loop ends with a falsy
`extracted_content` (either `None` or an empty string). -/
theorem loopExtract_falsy_of_find?_none :
    ∀ (hist : List ChatMsg) (acc : Option String), contentTruthy acc = false →
    hist.find? assistantValid = none → contentTruthy (loopExtract hist acc) = false
  | [], acc, hacc, _ => by simpa [loopExtract] using hacc
  | m :: rest, acc, hacc, h => by
    rw [List.find?] at h
    cases hv : assistantValid m with
    | true => rw [hv] at h; exact absurd h (by simp)
    | false =>
      rw [hv] at h
      simp only [Bool.false_eq_true, if_neg] at h
      rw [loopExtract]
      by_cases hr : m.role = "assistant"
      · have hc : ¬ pyStrip m.content ≠ "" := by
          intro hne
          rw [assistantValid] at hv
          simp [hr, hne] at hv
        simp only [if_pos hr, if_neg hc]
        exact loopExtract_falsy_of_find?_none rest (some (pyStrip m.content))
          (by simpa [contentTruthy] using hc) h
      · simp only [if_neg hr]
        exact loopExtract_falsy_of_find?_none rest acc hacc h

/-- The loop returns the stripped content of the first `assistantValid`
message, regardless of the falsy accumulator it carries. -/
theorem loopExtract_eq_of_find?_some :
    ∀ (hist : List ChatMsg) (acc : Option String) (m : ChatMsg),
    contentTruthy acc = false →
    hist.find? assistantValid = some m →
    loopExtract hist acc = some (pyStrip m.content)
  | [], acc, m, _, h => by simp [List.find?] at h
  | m0 :: rest, acc, m, hacc, h => by
    rw [List.find?] at h
    cases hv : assistantValid m0 with
    | true =>
      rw [hv] at h
      simp only [if_pos] at h
      cases h
      have hr : m0.role = "assistant" := by
        rw [assistantValid] at hv
        exact of_decide_eq_true (Bool.and_elim_left hv)
      have hc : pyStrip m0.content ≠ "" := by
        rw [assistantValid] at hv
        exact of_decide_eq_true (Bool.and_elim_right hv)
      rw [loopExtract]
      simp only [if_pos hr, if_pos hc]
    | false =>
      rw [hv] at h
      simp only [Bool.false_eq_true, if_neg] at h
      rw [loopExtract]
      by_cases hr : m0.role = "assistant"
      · have hc : ¬ pyStrip m0.content ≠ "" := by
          intro hne
          rw [assistantValid] at hv
          simp [hr, hne] at hv
        simp only [if_pos hr, if_neg hc]
        exact loopExtract_eq_of_find?_some rest (some (pyStrip m0.content)) m
          (by simpa [contentTruthy] using hc) h
      · simp only [if_neg hr]
        exact loopExtract_eq_of_find?_some rest acc m hacc h

/-- C7: for every path with a supported image extension whose file cannot be
decoded as an image (`cv2.imread` returns `None`), `extract_text_from_image`
returns the literal unreadable-image error string (and, returning `.ok`,
raises no exception). -/
theorem C7_unreadable_image (Img Gray : Type)
    (imread : String → Option Img) (cvtColor : Img → Except PyErr Gray)
    (image_to_string : Gray → Except PyErr String) (path : String)
    (hext : (pyEndsWith (pyLower path) ".png" || pyEndsWith (pyLower path) ".jpg" ||
      pyEndsWith (pyLower path) ".jpeg") = true)
    (hread : imread path = none) :
    extract_text_from_image imread cvtColor image_to_string path =
      Except.ok "Error: Image file not found or cannot be read." := by
  rw [extract_text_from_image, hread]

/-- C7 witness: a `.png` path whose bytes no image decoder accepts. -/
theorem C7_witness :
    (pyEndsWith (pyLower "Scan.PNG") ".png" || pyEndsWith (pyLower "Scan.PNG") ".jpg" ||
      pyEndsWith (pyLower "Scan.PNG") ".jpeg") = true ∧
    extract_text_from_image (fun _ => (none : Option Unit))
      (fun _ => Except.ok ()) (fun _ => Except.ok "text") "Scan.PNG" =
      Except.ok "Error: Image file not found or cannot be read." :=
  ⟨by decide,
   C7_unreadable_image Unit Unit (fun _ => none) (fun _ => Except.ok ())
     (fun _ => Except.ok "text") "Scan.PNG" (by decide) rfl⟩

/-- C8: whenever the try-block body of the PDF extractor raises—which happens
in particular when rasterization raises, or when any per-page OCR call
raises—`extract_text_from_pdf` returns (does not raise) exactly the string
`"Error extracting text from PDF: "` followed by the exception message, which
contains the claimed substring. -/
theorem C8_pdf_error_string (Img : Type)
    (convert_from_path : String → Except PyErr (List Img))
    (image_to_string : Img → Except PyErr String) (path : String) (e : PyErr) :
    (pdfTryBody convert_from_path image_to_string path = Except.error e →
      extract_text_from_pdf convert_from_path image_to_string path =
        "Error extracting text from PDF: " ++ e.msg) ∧
    (convert_from_path path = Except.error e →
      pdfTryBody convert_from_path image_to_string path = Except.error e) ∧
    (∀ imgs, convert_from_path path = Except.ok imgs →
      pdfPageLoop image_to_string imgs "" = Except.error e →
      pdfTryBody convert_from_path image_to_string path = Except.error e) := by
  refine ⟨fun h => ?_, fun h => ?_, fun imgs h1 h2 => ?_⟩
  · rw [extract_text_from_pdf, h]
  · rw [pdfTryBody, h]
    rfl
  · simp only [pdfTryBody, bind, Except.bind]
    rw [h1]
    simp only []
    rw [h2]

/-- C8 witness: a rasterizer that raises. -/
theorem C8_witness :
    @pdfTryBody Unit (fun _ => Except.error ⟨"Unable to get page count"⟩)
      (fun _ => Except.ok "") "doc.pdf" = Except.error ⟨"Unable to get page count"⟩ ∧
    @extract_text_from_pdf Unit (fun _ => Except.error ⟨"Unable to get page count"⟩)
      (fun _ => Except.ok "") "doc.pdf" =
      "Error extracting text from PDF: " ++ "Unable to get page count" :=
  ⟨rfl,
   (C8_pdf_error_string Unit (fun _ => Except.error ⟨"Unable to get page count"⟩)
     (fun _ => Except.ok "") "doc.pdf" ⟨"Unable to get page count"⟩).1 rfl⟩

/-- C10: the structuring stage always returns a dict: every failure branch is
an error dict, and on the success branch the regex match begins with `{`, so
a successful `json.loads` of it can only yield an object. -/
theorem C10_always_mapping (generate_content : String → Except PyErr (Option String))
    (raw_text : String) :
    ∃ kvs, extract_structured_data generate_content raw_text = PyJson.obj kvs := by
  rw [extract_structured_data]
  cases hg : generate_content (structuring_prompt raw_text) with
  | error e => exact ⟨_, rfl⟩
  | ok o =>
    cases o with
    | none => exact ⟨_, rfl⟩
    | some text =>
      by_cases hs : pyStrip text = ""
      · simp only [if_pos hs]
        exact ⟨_, rfl⟩
      · simp only [if_neg hs]
        cases hm : reSearchBrace text.data with
        | none => simp only [hm]; exact ⟨_, rfl⟩
        | some m =>
          simp only [hm]
          obtain ⟨t, rfl⟩ := reSearchBrace_head text.data m hm
          cases hp : pyJsonLoads ⟨'{' :: t⟩ with
          | none => simp only [hp]; exact ⟨_, rfl⟩
          | some v =>
            simp only [hp]
            obtain ⟨kvs, rfl⟩ := pyJsonLoads_head_brace t v hp
            exact ⟨kvs, rfl⟩

/-- C4: if the model reply is non-empty after stripping but contains no
`{...}` region (no `{` strictly before a `}`), the structuring stage returns
exactly the invalid-format error dict (and, being a total function into
`PyJson`, raises nothing). -/
theorem C4_no_brace_region (generate_content : String → Except PyErr (Option String))
    (raw_text resp : String)
    (hresp : generate_content (structuring_prompt raw_text) = Except.ok (some resp))
    (hne : pyStrip resp ≠ "")
    (hno : ¬ ∃ i j, i < j ∧ resp.data.get? i = some '{' ∧ resp.data.get? j = some '}') :
    extract_structured_data generate_content raw_text =
      errObj "Gemini API returned invalid JSON format" := by
  have hsearch : reSearchBrace resp.data = none := by
    rw [reSearchBrace_eq_greedySpanSpec, greedySpanSpec]
    cases hf : firstIdxOf '{' resp.data with
    | none => rfl
    | some i =>
      cases hk : lastIdxOf '}' resp.data with
      | none => rfl
      | some j =>
        by_cases hij : i < j
        · exact absurd
            ⟨i, j, hij, firstIdxOf_get? '{' resp.data i hf, lastIdxOf_get? '}' resp.data j hk⟩
            hno
        · simp [hij]
  rw [extract_structured_data]
  simp only [hresp]
  simp [hne, hsearch]

/-- C4 witness: a reply with text but no braces. -/
theorem C4_witness :
    pyStrip "I cannot help with that." ≠ "" ∧
    extract_structured_data (fun _ => Except.ok (some "I cannot help with that.")) "raw" =
      errObj "Gemini API returned invalid JSON format" :=
  ⟨by decide,
   C4_no_brace_region (fun _ => Except.ok (some "I cannot help with that.")) "raw"
     "I cannot help with that." rfl (by decide)
     (by
       rintro ⟨i, j, hij, hi, hj⟩
       exact absurd (List.get?_mem hi) (by decide))⟩

/-- C1 counterexample: the image file decodes (`imread` succeeds) but the OCR
call raises; `extract_text_from_image` has no try/except, so the exception
propagates out of the stage instead of being downgraded to a value, refuting
the claim that no stage lets an exception past its boundary. -/
theorem C1_counterexample :
    @extract_text_from_image Unit Unit (fun _ => some ())
      (fun _ => Except.ok ()) (fun _ => Except.error ⟨"tesseract is not installed"⟩)
      "scan.png" = Except.error ⟨"tesseract is not installed"⟩ := rfl

/-- C1 amended: the PDF extractor, the structuring stage, and the validation
stage from the chat call onward do downgrade exceptions to error values; but
`extract_text_from_image` only handles the decode-failure case and
propagates any exception raised by grayscale conversion or OCR (and agent
construction in the validation stage is likewise unprotected, see C3). -/
theorem C1_amended_stage_boundaries :
    (∀ (Img : Type) (conv : String → Except PyErr (List Img))
      (ocr : Img → Except PyErr String) (path : String) (e : PyErr),
      pdfTryBody conv ocr path = Except.error e →
      extract_text_from_pdf conv ocr path = "Error extracting text from PDF: " ++ e.msg) ∧
    (∀ (gen : String → Except PyErr (Option String)) (raw : String) (e : PyErr),
      gen (structuring_prompt raw) = Except.error e →
      extract_structured_data gen raw = errObj ("Gemini API error: " ++ e.msg)) ∧
    (∀ (A U : Type) (a : A) (u : U) (chat : U → A → String → Except PyErr ChatResult)
      (dec : String → String) (data : PyJson) (e : PyErr),
      chat u a (pyJsonDumps data 4) = Except.error e →
      validate_extracted_data (Except.ok a) (Except.ok u) chat dec data =
        Except.ok (errObj ("Validation failed: " ++ e.msg))) ∧
    (∀ (Img Gray : Type) (imread : String → Option Img) (cvt : Img → Except PyErr Gray)
      (ocr : Gray → Except PyErr String) (path : String) (img : Img) (gray : Gray)
      (e : PyErr),
      imread path = some img → cvt img = Except.ok gray → ocr gray = Except.error e →
      extract_text_from_image imread cvt ocr path = Except.error e) := by
  refine ⟨fun Img conv ocr path e h => ?_, fun gen raw e h => ?_,
    fun A U a u chat dec data e h => ?_,
    fun Img Gray imread cvt ocr path img gray e h1 h2 h3 => ?_⟩
  · rw [extract_text_from_pdf, h]
  · rw [extract_structured_data]
    simp only [h]
  · rw [validate_extracted_data]
    simp only [bind, Except.bind, h]
  · rw [extract_text_from_image, h1]
    simp only [bind, Except.bind]
    rw [h2]
    simp only []
    rw [h3]

/-- C1 witness for the amended statement: each conjunct applied at a
concrete throwing oracle. -/
theorem C1_amended_witness :
    @extract_text_from_pdf Unit (fun _ => Except.error ⟨"poppler missing"⟩)
      (fun _ => Except.ok "") "doc.pdf" =
      "Error extracting text from PDF: " ++ "poppler missing" ∧
    extract_structured_data (fun _ => Except.error ⟨"quota exceeded"⟩) "raw" =
      errObj ("Gemini API error: " ++ "quota exceeded") ∧
    @validate_extracted_data Unit Unit (Except.ok ()) (Except.ok ())
      (fun _ _ _ => Except.error ⟨"connection refused"⟩) id PyJson.null =
      Except.ok (errObj ("Validation failed: " ++ "connection refused")) ∧
    @extract_text_from_image Unit Unit (fun _ => some ())
      (fun _ => Except.ok ()) (fun _ => Except.error ⟨"ocr crash"⟩) "a.jpg" =
      Except.error ⟨"ocr crash"⟩ :=
  ⟨C1_amended_stage_boundaries.1 Unit (fun _ => Except.error ⟨"poppler missing"⟩)
     (fun _ => Except.ok "") "doc.pdf" ⟨"poppler missing"⟩ rfl,
   C1_amended_stage_boundaries.2.1 (fun _ => Except.error ⟨"quota exceeded"⟩) "raw"
     ⟨"quota exceeded"⟩ rfl,
   C1_amended_stage_boundaries.2.2.1 Unit Unit () ()
     (fun _ _ _ => Except.error ⟨"connection refused"⟩) id PyJson.null
     ⟨"connection refused"⟩ rfl,
   C1_amended_stage_boundaries.2.2.2 Unit Unit (fun _ => some ()) (fun _ => Except.ok ())
     (fun _ => Except.error ⟨"ocr crash"⟩) "a.jpg" () () ⟨"ocr crash"⟩ rfl rfl rfl⟩

/-- C2 counterexample: for the reply `{"Name": "A"} x {"PAN": "B"}` the
claim predicts parsing the first-closing-brace span `{"Name": "A"}` and
returning that mapping; the code's greedy regex instead matches up to the
LAST `}`, the match fails to parse, and the stage returns the
malformed-JSON error dict. -/
theorem C2_counterexample :
    extract_structured_data
      (fun _ => Except.ok (some "\x7b\"Name\": \"A\"\x7d x \x7b\"PAN\": \"B\"\x7d"))
      "raw" = errObj "Gemini API returned malformed JSON" ∧
    firstCloseSpanSpec "\x7b\"Name\": \"A\"\x7d x \x7b\"PAN\": \"B\"\x7d".data =
      some "\x7b\"Name\": \"A\"\x7d".data ∧
    pyJsonLoads "\x7b\"Name\": \"A\"\x7d" = some (PyJson.obj [("Name", PyJson.str "A")]) ∧
    errObj "Gemini API returned malformed JSON" ≠ PyJson.obj [("Name", PyJson.str "A")] := by
  refine ⟨rfl, by decide, rfl, fun h => ?_⟩
  exact absurd (congrArg (fun w => hasKey w "Name") h) (by decide)

/-- C2 amended: the structuring stage extracts the span from the first `{`
to the LAST `}` of the reply (the regex `\{.*\}` is greedy), and when that
span parses as JSON the parsed value is returned as-is. -/
theorem C2_amended_greedy_span (generate_content : String → Except PyErr (Option String))
    (raw_text resp : String) (m : List Char) (v : PyJson)
    (hresp : generate_content (structuring_prompt raw_text) = Except.ok (some resp))
    (hne : pyStrip resp ≠ "")
    (hspan : greedySpanSpec resp.data = some m)
    (hparse : pyJsonLoads ⟨m⟩ = some v) :
    extract_structured_data generate_content raw_text = v := by
  have hs : reSearchBrace resp.data = some m := by
    rw [reSearchBrace_eq_greedySpanSpec, hspan]
  rw [extract_structured_data]
  simp only [hresp]
  simp [hne, hs, hparse]

/-- C2 amended witness: a reply with surrounding prose around one JSON
object; the greedy span is the object itself and is returned parsed. -/
theorem C2_amended_witness :
    pyStrip "ok: \x7b\"PAN\": \"X\"\x7d!" ≠ "" ∧
    greedySpanSpec "ok: \x7b\"PAN\": \"X\"\x7d!".data = some "\x7b\"PAN\": \"X\"\x7d".data ∧
    pyJsonLoads ⟨"\x7b\"PAN\": \"X\"\x7d".data⟩ = some (PyJson.obj [("PAN", PyJson.str "X")]) ∧
    extract_structured_data (fun _ => Except.ok (some "ok: \x7b\"PAN\": \"X\"\x7d!")) "raw" =
      PyJson.obj [("PAN", PyJson.str "X")] :=
  ⟨by decide, by decide, rfl,
   C2_amended_greedy_span (fun _ => Except.ok (some "ok: \x7b\"PAN\": \"X\"\x7d!")) "raw"
     "ok: \x7b\"PAN\": \"X\"\x7d!" "\x7b\"PAN\": \"X\"\x7d".data
     (PyJson.obj [("PAN", PyJson.str "X")]) rfl (by decide) (by decide) rfl⟩

/-- C3 counterexample: when constructing the assistant agent raises, the
exception propagates out of `validate_extracted_data` (the constructors run
before the try block), instead of being returned as the claimed
`Validation failed` mapping. -/
theorem C3_counterexample :
    @validate_extracted_data Unit Unit
      (Except.error ⟨"openai config missing"⟩) (Except.ok ())
      (fun _ _ _ => Except.ok ⟨true, []⟩) id (errObj "x") =
      Except.error ⟨"openai config missing"⟩ ∧
    @validate_extracted_data Unit Unit
      (Except.error ⟨"openai config missing"⟩) (Except.ok ())
      (fun _ _ _ => Except.ok ⟨true, []⟩) id (errObj "x") ≠
      Except.ok (errObj ("Validation failed: " ++ "openai config missing")) := by
  refine ⟨rfl, fun h => ?_⟩
  rw [show @validate_extracted_data Unit Unit
      (Except.error ⟨"openai config missing"⟩) (Except.ok ())
      (fun _ _ _ => Except.ok ⟨true, []⟩) id (errObj "x") =
      Except.error ⟨"openai config missing"⟩ from rfl] at h
  exact Except.noConfusion h

/-- C3 amended: exceptions raised by `initiate_chat` (and everything after
it inside the try block) are caught and become
`{"error": "Validation failed: <message>"}`; exceptions raised while
constructing either agent propagate out of the stage. -/
theorem C3_amended_try_scope :
    (∀ (A U : Type) (a : A) (u : U) (chat : U → A → String → Except PyErr ChatResult)
      (dec : String → String) (data : PyJson) (e : PyErr),
      chat u a (pyJsonDumps data 4) = Except.error e →
      validate_extracted_data (Except.ok a) (Except.ok u) chat dec data =
        Except.ok (errObj ("Validation failed: " ++ e.msg))) ∧
    (∀ (A U : Type) (mkU : Except PyErr U)
      (chat : U → A → String → Except PyErr ChatResult) (dec : String → String)
      (data : PyJson) (e : PyErr),
      validate_extracted_data (Except.error e) mkU chat dec data = Except.error e) ∧
    (∀ (A U : Type) (a : A) (chat : U → A → String → Except PyErr ChatResult)
      (dec : String → String) (data : PyJson) (e : PyErr),
      validate_extracted_data (Except.ok a) (Except.error e) chat dec data =
        Except.error e) := by
  refine ⟨fun A U a u chat dec data e h => ?_, fun A U mkU chat dec data e => ?_,
    fun A U a chat dec data e => ?_⟩
  · rw [validate_extracted_data]
    simp only [bind, Except.bind, h]
  · rfl
  · rfl

/-- C3 amended witness: a raising chat call is downgraded; raising
constructors propagate. -/
theorem C3_amended_witness :
    @validate_extracted_data Unit Unit (Except.ok ()) (Except.ok ())
      (fun _ _ _ => Except.error ⟨"rate limited"⟩) id (errObj "y") =
      Except.ok (errObj ("Validation failed: " ++ "rate limited")) ∧
    @validate_extracted_data Unit Unit (Except.error ⟨"boom a"⟩)
      (Except.ok ()) (fun _ _ _ => Except.ok ⟨true, []⟩) id PyJson.null =
      Except.error ⟨"boom a"⟩ ∧
    @validate_extracted_data Unit Unit (Except.ok ())
      (Except.error ⟨"boom u"⟩) (fun _ _ _ => Except.ok ⟨true, []⟩) id PyJson.null =
      Except.error ⟨"boom u"⟩ :=
  ⟨C3_amended_try_scope.1 Unit Unit () () (fun _ _ _ => Except.error ⟨"rate limited"⟩)
     id (errObj "y") ⟨"rate limited"⟩ rfl,
   C3_amended_try_scope.2.1 Unit Unit (Except.ok ()) (fun _ _ _ => Except.ok ⟨true, []⟩)
     id PyJson.null ⟨"boom a"⟩,
   C3_amended_try_scope.2.2 Unit Unit () (fun _ _ _ => Except.ok ⟨true, []⟩)
     id PyJson.null ⟨"boom u"⟩⟩

/-- Case analysis of the selection-and-parse step: with the history
attribute present, the outcome is decided by the first `assistantValid`
message of the history. -/
theorem handleChatResult_selection (dec : String → String) (res : ChatResult)
    (hattr : res.hasAttr = true) :
    (res.chat_history.find? assistantValid = none →
      handleChatResult dec res = errObj "Assistant did not return a valid JSON response.") ∧
    (∀ m, res.chat_history.find? assistantValid = some m →
      handleChatResult dec res =
        match pyJsonLoads (pyStrip m.content) with
        | some v => v
        | none =>
          PyJson.obj
            [("error", PyJson.str ("Invalid JSON response: " ++ dec (pyStrip m.content))),
             ("raw_response", PyJson.str (pyStrip m.content))]) := by
  constructor
  · intro hfind
    rw [handleChatResult]
    by_cases hemp : res.chat_history.isEmpty
    · simp [hattr, hemp, contentTruthy]
    · have hfalsy := loopExtract_falsy_of_find?_none res.chat_history none rfl hfind
      simp only [hattr, hemp, Bool.true_and, not_false_iff, if_pos, if_true]
      cases hle : loopExtract res.chat_history none with
      | none => simp [hle, contentTruthy]
      | some s =>
        rw [hle] at hfalsy
        have hs : s = "" := by
          by_contra hne
          simp [contentTruthy, hne] at hfalsy
        subst hs
        simp [hle, contentTruthy]
  · intro m hfind
    have hvalid : assistantValid m = true := List.find?_some hfind
    have hne : pyStrip m.content ≠ "" := by
      rw [assistantValid] at hvalid
      exact of_decide_eq_true (Bool.and_elim_right hvalid)
    have hemp : res.chat_history.isEmpty = false := by
      cases hh : res.chat_history with
      | nil => rw [hh] at hfind; simp [List.find?] at hfind
      | cons x xs => simp
    have hle := loopExtract_eq_of_find?_some res.chat_history none m rfl hfind
    rw [handleChatResult]
    simp [hattr, hemp, hle, contentTruthy, hne]

/-- C5: once the exchange yields a chat result, the validation stage selects
the stripped content of the first message with role `"assistant"` and
non-empty stripped content; with no such message it returns the error
mapping; if the content parses it is returned as-is; if parsing fails the
error mapping additionally carries the content under `raw_response`. -/
theorem C5_assistant_selection (A U : Type) (a : A) (u : U)
    (chat : U → A → String → Except PyErr ChatResult) (dec : String → String)
    (data : PyJson) (res : ChatResult)
    (hchat : chat u a (pyJsonDumps data 4) = Except.ok res)
    (hattr : res.hasAttr = true) :
    (res.chat_history.find? assistantValid = none →
      validate_extracted_data (Except.ok a) (Except.ok u) chat dec data =
        Except.ok (errObj "Assistant did not return a valid JSON response.")) ∧
    (∀ m v, res.chat_history.find? assistantValid = some m →
      pyJsonLoads (pyStrip m.content) = some v →
      validate_extracted_data (Except.ok a) (Except.ok u) chat dec data = Except.ok v) ∧
    (∀ m, res.chat_history.find? assistantValid = some m →
      pyJsonLoads (pyStrip m.content) = none →
      validate_extracted_data (Except.ok a) (Except.ok u) chat dec data =
        Except.ok (PyJson.obj
          [("error", PyJson.str ("Invalid JSON response: " ++ dec (pyStrip m.content))),
           ("raw_response", PyJson.str (pyStrip m.content))])) := by
  have hval : validate_extracted_data (Except.ok a) (Except.ok u) chat dec data =
      Except.ok (handleChatResult dec res) := by
    rw [validate_extracted_data]
    simp only [bind, Except.bind, hchat]
  refine ⟨fun hfind => ?_, fun m v hfind hp => ?_, fun m hfind hp => ?_⟩
  · rw [hval, (handleChatResult_selection dec res hattr).1 hfind]
  · rw [hval, (handleChatResult_selection dec res hattr).2 m hfind, hp]
  · rw [hval, (handleChatResult_selection dec res hattr).2 m hfind, hp]

/-- C5 witness: a history whose first assistant message with non-empty
content carries valid JSON, applied on the parse-success branch. -/
theorem C5_witness :
    ((fun _ _ _ => Except.ok (⟨true,
        [⟨"user", "\x7b\"k\": 1\x7d"⟩, ⟨"assistant", "  "⟩, ⟨"assistant", " \x7b\"k\": 1\x7d "⟩]⟩ :
        ChatResult)) : Unit → Unit → String → Except PyErr ChatResult) () ()
      (pyJsonDumps (errObj "x") 4) =
      Except.ok ⟨true,
        [⟨"user", "\x7b\"k\": 1\x7d"⟩, ⟨"assistant", "  "⟩, ⟨"assistant", " \x7b\"k\": 1\x7d "⟩]⟩ ∧
    @validate_extracted_data Unit Unit (Except.ok ()) (Except.ok ())
      (fun _ _ _ => Except.ok ⟨true,
        [⟨"user", "\x7b\"k\": 1\x7d"⟩, ⟨"assistant", "  "⟩, ⟨"assistant", " \x7b\"k\": 1\x7d "⟩]⟩)
      id (errObj "x") = Except.ok (PyJson.obj [("k", PyJson.int 1)]) :=
  ⟨rfl,
   (C5_assistant_selection Unit Unit () ()
     (fun _ _ _ => Except.ok ⟨true,
       [⟨"user", "\x7b\"k\": 1\x7d"⟩, ⟨"assistant", "  "⟩, ⟨"assistant", " \x7b\"k\": 1\x7d "⟩]⟩)
     id (errObj "x")
     ⟨true, [⟨"user", "\x7b\"k\": 1\x7d"⟩, ⟨"assistant", "  "⟩,
       ⟨"assistant", " \x7b\"k\": 1\x7d "⟩]⟩ rfl rfl).2.1
     ⟨"assistant", " \x7b\"k\": 1\x7d "⟩ (PyJson.obj [("k", PyJson.int 1)])
     (by decide) rfl⟩

/-- C6: the orchestrator hands the structuring stage's mapping—error key or
not—unchanged to the validation stage (visible in the recorded
`Event.validation`), and the validation stage's behaviour is entirely
determined by the chat exchange opened with that mapping serialized as
pretty-printed JSON (indent 4); no short-circuit inspects the error key. -/
theorem C6_error_forwarded_unchanged (Img Gray PdfImg A U : Type)
    (orc : Oracles Img Gray PdfImg A U) (path raw : String) (a : A) (u : U)
    (hex : orc.os_path_exists path = true)
    (hpng : pyEndsWith (pyLower path) ".png" = true)
    (hraw : extract_text_from_image orc.imread orc.cvtColor orc.ocr_image path =
      Except.ok raw)
    (ha : orc.mkAssistant = Except.ok a) (hu : orc.mkUserProxy = Except.ok u)
    (herr : hasKey (extract_structured_data orc.generate_content raw) "error" = true) :
    (∃ prints, Script.main orc path = Except.ok (prints,
      [Event.extractImage path, Event.structuring raw,
       Event.validation (extract_structured_data orc.generate_content raw)])) ∧
    (validate_extracted_data orc.mkAssistant orc.mkUserProxy orc.initiate_chat
        orc.decodeErrMsg (extract_structured_data orc.generate_content raw) =
      match orc.initiate_chat u a
          (pyJsonDumps (extract_structured_data orc.generate_content raw) 4) with
      | Except.ok r => Except.ok (handleChatResult orc.decodeErrMsg r)
      | Except.error e => Except.ok (errObj ("Validation failed: " ++ e.msg))) := by
  have hv : ∃ w, validate_extracted_data orc.mkAssistant orc.mkUserProxy orc.initiate_chat
      orc.decodeErrMsg (extract_structured_data orc.generate_content raw) =
      Except.ok w := by
    rw [validate_extracted_data]
    simp only [bind, Except.bind, ha, hu]
    cases orc.initiate_chat u a
        (pyJsonDumps (extract_structured_data orc.generate_content raw) 4) with
    | ok r => exact ⟨_, rfl⟩
    | error e => exact ⟨_, rfl⟩
  obtain ⟨w, hw⟩ := hv
  constructor
  · refine ⟨["\n🔹 Extracted Raw Text:\n" ++ " " ++ raw,
      "\n✅ Final Extracted Data:\n" ++ " " ++ pyJsonDumps w 4], ?_⟩
    rw [Script.main]
    simp only [hex, hpng, Bool.true_or, if_true, not_true, if_neg, if_false,
      Bool.not_eq_true, decide_True, not_false_iff]
    rw [hraw]
    simp only []
    rw [mainAfterExtract]
    simp only [hw]
    rfl
  · rw [validate_extracted_data]
    simp only [bind, Except.bind, ha, hu]

/-- A concrete all-stub oracle bundle: every file exists and decodes, OCR
reads `"TXT"`, the generative call raises, the chat yields an empty
history. -/
def sampleOracles : Oracles Unit Unit Unit Unit Unit :=
  ⟨fun _ => true, fun _ => some (), fun _ => Except.ok (), fun _ => Except.ok "TXT",
   fun _ => Except.ok [], fun _ => Except.ok "", fun _ => Except.error ⟨"boom"⟩,
   Except.ok (), Except.ok (), fun _ _ _ => Except.ok ⟨true, []⟩,
   fun _ => "decode error"⟩

/-- C6 witness: the structuring stage fails (error mapping), and the
orchestrator still records a validation call on exactly that mapping. -/
theorem C6_witness :
    hasKey (extract_structured_data sampleOracles.generate_content "TXT") "error" = true ∧
    (∃ prints, Script.main sampleOracles "a.png" = Except.ok (prints,
      [Event.extractImage "a.png", Event.structuring "TXT",
       Event.validation (extract_structured_data sampleOracles.generate_content "TXT")])) :=
  ⟨rfl,
   (C6_error_forwarded_unchanged Unit Unit Unit Unit Unit sampleOracles "a.png" "TXT"
     () () rfl (by decide) rfl rfl rfl rfl).1⟩

/-- C9: for an existing file whose lowered path ends in none of the four
supported extensions, the orchestrator prints exactly one JSON error object
and makes no extraction, structuring, or validation call (empty trace). -/
theorem C9_unsupported_extension (Img Gray PdfImg A U : Type)
    (orc : Oracles Img Gray PdfImg A U) (path : String)
    (hex : orc.os_path_exists path = true)
    (h1 : pyEndsWith (pyLower path) ".png" = false)
    (h2 : pyEndsWith (pyLower path) ".jpg" = false)
    (h3 : pyEndsWith (pyLower path) ".jpeg" = false)
    (h4 : pyEndsWith (pyLower path) ".pdf" = false) :
    Script.main orc path =
      Except.ok ([pyJsonDumps (errObj "Unsupported file format!") 4], []) := by
  rw [Script.main]
  simp [hex, h1, h2, h3, h4]

/-- C9 witness: a `.txt` path short-circuits with the single error print and
an empty call trace. -/
theorem C9_witness :
    sampleOracles.os_path_exists "report.txt" = true ∧
    Script.main sampleOracles "report.txt" =
      Except.ok ([pyJsonDumps (errObj "Unsupported file format!") 4], []) :=
  ⟨rfl,
   C9_unsupported_extension Unit Unit Unit Unit Unit sampleOracles "report.txt" rfl
     (by decide) (by decide) (by decide) (by decide)⟩
